import Mathlib

/-!
Verification of the sandboxed-execution and rubric-judging subsystem of this
repository.  The Python sources are shallowly embedded: the pure scoring code
becomes Lean functions over exact rationals, the in-memory submission store
(a dict keyed by submission id) becomes an association list with overwrite
semantics, and the asynchronous loops (websocket status stream, client poll
loop) become fuel-indexed recursions over a time-indexed view of the store
or an abstract trace of transport results.  Wall-clock instants and measured
durations are passed in as explicit rational parameters; in the poll loop,
time advances by the performed sleeps.
-/

/-! ## String machinery

The judge selects a scoring strategy by Python substring tests such as
`"correct" in description`; `strIn pat s` is that membership test, computed
on the underlying character lists.  `lowerStr` models `str.lower()` for the
ASCII descriptions the rubric uses. -/

/-- Does `pat` occur at the head of `l`? -/
def leadsChars : List Char → List Char → Bool
  | [], _ => true
  | _ :: _, [] => false
  | a :: as, b :: bs => a = b && leadsChars as bs

/-- Does `pat` occur anywhere in `l`? -/
def containsChars (pat : List Char) : List Char → Bool
  | [] => leadsChars pat []
  | l@(_ :: rest) => leadsChars pat l || containsChars pat rest

/-- Model of the Python test `pat in s` on strings. -/
def strIn (pat s : String) : Bool := containsChars pat.toList s.toList

/-- Model of Python `s.lower()` (characterwise lowering). -/
def lowerStr (s : String) : String := ⟨s.toList.map Char.toLower⟩

/-! ## Data model of the judge (src/simulation/judge.py) -/

/-- One weighted criterion of a task rubric (class RubricItem). -/
structure RubricItem where
  description : String
  weight : ℚ
deriving DecidableEq

/-- Task specification (class TaskSpec); only the fields the scoring engine
reads are kept. -/
structure TaskSpec where
  task_id : String
  category : String
  time_limit_sec : ℚ
  memory_mb : Int
  metric : String
  rubric : List RubricItem
deriving DecidableEq

/-- One feedback entry of a JudgeResult. -/
structure FeedbackItem where
  source : String
  rating : ℚ
  rationale : String
  rubric_section : String
deriving DecidableEq

/-- A value stored in the heterogeneous metrics dict. -/
inductive MetricVal
  | num (q : ℚ)
  | int (n : Int)
  | str (s : String)
deriving DecidableEq

/-- Result of a solution evaluation (class JudgeResult); the episode id is
kept as a string. -/
structure JudgeResult where
  episode_id : String
  task_id : String
  success : Bool
  score : ℚ
  metrics : List (String × MetricVal)
  feedback : List FeedbackItem
deriving DecidableEq

/-! ## Rubric scoring (Judge._score_rubric_item, Judge._generate_feedback,
Judge._evaluate_solution)

The Python code reads the runtime as `metrics.get(spec.metric, float("inf"))`;
the absent case, which makes all three `<` comparisons false, is embedded as
`none`. -/

/-- Judge._score_rubric_item: strategy selection by substring match on the
lowercased description, then the per-strategy rule. -/
def score_rubric_item (item : RubricItem) (logs : String) (exit_code : Int)
    (runtime_ms : Option ℚ) : ℚ :=
  let description := lowerStr item.description
  if strIn "correct" description || strIn "output" description then
    if exit_code ≠ 0 then 0
    else if strIn "sorted" logs then 1 else 0
  else if strIn "complexity" description || strIn "performance" description then
    match runtime_ms with
    | none => 1/10
    | some t =>
      if t < 100 then 1
      else if t < 500 then 7/10
      else if t < 1000 then 4/10
      else 1/10
  else if strIn "style" description || strIn "pep8" description then
    if strIn "style error" (lowerStr logs) then 1/2 else 1
  else 1/2

/-- Judge._generate_feedback: templated rationale text by score bucket. -/
def generate_feedback (item : RubricItem) (score : ℚ) : String :=
  if score > 4/5 then "Excellent work on: " ++ item.description
  else if score > 3/5 then "Good job on: " ++ item.description ++ ", but room for improvement"
  else if score > 3/10 then "Needs work on: " ++ item.description
  else "Failed to meet criteria: " ++ item.description

/-- Judge._evaluate_solution: scores each rubric item, accumulates the
weighted total and the total weight, guards the division when the total
weight is not positive, and compares the final score with the 0.6
threshold.  Returns the (success, score, feedback) triple. -/
def evaluate_rubric (spec : TaskSpec) (logs : String) (exit_code : Int)
    (runtime_ms : Option ℚ) : Bool × ℚ × List FeedbackItem :=
  let scored := spec.rubric.map (fun item =>
    (item, score_rubric_item item logs exit_code runtime_ms))
  let total_score := (scored.map (fun p => p.2 * p.1.weight)).sum
  let total_weight := (spec.rubric.map RubricItem.weight).sum
  let feedback := scored.map (fun p =>
    { source := "judge", rating := p.2, rationale := generate_feedback p.1 p.2,
      rubric_section := p.1.description : FeedbackItem })
  let final_score := if total_weight > 0 then total_score / total_weight else 0
  (final_score ≥ 3/5, final_score, feedback)

/-- The status field of a tracked or reported solution record. -/
inductive SolStatus
  | running
  | completed
  | error
  | timeout
deriving DecidableEq

/-- The execution outcome dict the judge receives from the runner: the
status plus the optional keys it reads with .get. -/
structure SolutionResult where
  status : SolStatus
  error : Option String
  exit_code : Option Int
  logs : Option String
  execution_time_ms : Option ℚ
deriving DecidableEq

/-- Judge.evaluate_solution from the point where the execution outcome is in
hand: extracts exit code, logs and execution time (falling back to the
wall-clock measurement `wall_ms` when the runner reported none), builds the
metrics dict, short-circuits on error or timeout status, and otherwise
scores the rubric.  Since `metrics[spec.metric]` is assigned after
`metrics["exit_code"]`, the scorer always reads back the execution time,
so the rubric is evaluated with `some execution_time`. -/
def evaluate_solution (spec : TaskSpec) (episode_id task_id : String)
    (solution_result : SolutionResult) (wall_ms : ℚ) : JudgeResult :=
  let exit_code := solution_result.exit_code.getD (-1)
  let logs := solution_result.logs.getD ""
  let execution_time := solution_result.execution_time_ms.getD wall_ms
  if solution_result.status = .error ∨ solution_result.status = .timeout then
    let error_message := solution_result.error.getD "Unknown error"
    { episode_id := episode_id, task_id := task_id, success := false, score := 0,
      metrics := [("error", .str error_message)],
      feedback := [{ source := "judge", rating := 0,
                     rationale := "Execution error: " ++ error_message,
                     rubric_section := "execution" }] }
  else
    let r := evaluate_rubric spec logs exit_code (some execution_time)
    { episode_id := episode_id, task_id := task_id, success := r.1, score := r.2.1,
      metrics := [("exit_code", .int exit_code), (spec.metric, .num execution_time)],
      feedback := r.2.2 }

/-- Modelled from the spec: the Performance strategy as the spec words it, a
pure bucket function of the measured execution time, with a missing
measurement falling in the lowest bucket. -/
def specPerformanceScore (runtime_ms : Option ℚ) : ℚ :=
  match runtime_ms with
  | none => 1/10
  | some t =>
    if t < 100 then 1
    else if t < 500 then 7/10
    else if t < 1000 then 4/10
    else 1/10

/-! ## The solution runner (src/solution_runner_api.py)

The global `active_solutions` dict becomes an association list with
overwrite-on-assignment semantics; `time.time()` readings become explicit
rational arguments. -/

/-- A solution execution request (class SolutionRequest). -/
structure SolutionRequest where
  code : String
  language : String
  memory_limit_mb : Int
  time_limit_sec : ℚ
  solution_id : String
deriving DecidableEq

/-- One tracked entry of `active_solutions`: the keys the code writes.
Optional fields are present only after the corresponding update ran. -/
structure SolRecord where
  status : SolStatus
  start_time : ℚ
  request : SolutionRequest
  exit_code : Option Int := none
  logs : Option String := none
  execution_time_ms : Option ℚ := none
  error : Option String := none
deriving DecidableEq

/-- The `active_solutions` store, keyed by solution id. -/
abbrev Store := List (String × SolRecord)

/-- Dict lookup `active_solutions.get(id)`. -/
def storeGet (st : Store) (id : String) : Option SolRecord :=
  (st.find? (fun p => p.1 = id)).map (·.2)

/-- Dict assignment `active_solutions[id] = r`: overwrites the binding if the
key exists, otherwise adds it. -/
def storeSet : Store → String → SolRecord → Store
  | [], id, r => [(id, r)]
  | (k, v) :: rest, id, r =>
    if k = id then (id, r) :: rest else (k, v) :: storeSet rest id r

/-- How many bindings the store holds for an id (a dict holds at most one). -/
def countKey (st : Store) (id : String) : Nat :=
  (st.filter (fun p => p.1 = id)).length

/-- The body returned by POST /solutions. -/
structure SubmitResponse where
  status : String
  solution_id : String
deriving DecidableEq

/-- The record run_solution stores before scheduling execution:
`{"status": "running", "start_time": time.time(), "request": ...}`. -/
def initialRecord (request : SolutionRequest) (now : ℚ) : SolRecord :=
  { status := .running, start_time := now, request := request }

/-- run_solution (POST /solutions): unconditionally assigns the fresh record
under the requested id and replies accepted; there is no membership check
before the assignment. -/
def run_solution (st : Store) (request : SolutionRequest) (now : ℚ) :
    Store × SubmitResponse :=
  (storeSet st request.solution_id (initialRecord request now),
   { status := "accepted", solution_id := request.solution_id })

/-- What the container run observed by execute_solution did: `waitCompleted`
is container.wait returning (exit code, logs, current wall clock);
`waitRaised` is container.wait raising, which is how both an execution
timeout and any other wait fault surface; `startRaised` is the outer
exception when the container cannot be created. -/
inductive ExecEvent
  | waitCompleted (exit_code : Int) (logs : String) (now : ℚ)
  | waitRaised (message : String)
  | startRaised (message : String)
deriving DecidableEq

/-- The dict .update applied on natural completion. -/
def completeUpdate (r : SolRecord) (exit_code : Int) (logs : String) (now : ℚ) :
    SolRecord :=
  { r with status := .completed, exit_code := some exit_code, logs := some logs,
           execution_time_ms := some ((now - r.start_time) * 1000) }

/-- The dict .update applied when the wait (or the container start) raised. -/
def errorUpdate (r : SolRecord) (message : String) : SolRecord :=
  { r with status := .error, error := some message }

/-- execute_solution: applies the update selected by the execution event to
the tracked record, with no check of the current state.  When the id is
untracked the store is left unchanged (the code would raise out of the
task without mutating the dict). -/
def execute_solution (st : Store) (id : String) (ev : ExecEvent) : Store :=
  match storeGet st id with
  | none => st
  | some r =>
    match ev with
    | .waitCompleted ec lg now => storeSet st id (completeUpdate r ec lg now)
    | .waitRaised msg => storeSet st id (errorUpdate r msg)
    | .startRaised msg => storeSet st id (errorUpdate r msg)

/-! ## The websocket status stream (solution_status in
src/solution_runner_api.py)

The handler reads the store, emits, then loops: each pass reads the store,
emits and closes on an absent or terminal record, and otherwise sleeps
100ms.  The store is embedded as a function of the tick index (one tick per
100ms sleep); `fuel` bounds the number of loop passes modelled. -/

/-- A message sent over the websocket. -/
inductive WsMsg
  | snapshot (r : SolRecord)
  | notFound
deriving DecidableEq

/-- The terminal-status test `status in ["completed", "error", "timeout"]`. -/
def isTerminal (s : SolStatus) : Bool :=
  s = .completed || s = .error || s = .timeout

/-- The wait loop of the websocket handler: at tick t it re-reads the store;
an absent record emits not_found and closes, a terminal record emits the
snapshot and closes, otherwise it sleeps one tick. -/
def wsLoop (store : Nat → Option SolRecord) : Nat → Nat → Option WsMsg
  | 0, _ => none
  | fuel + 1, t =>
    match store t with
    | none => some .notFound
    | some r =>
      if isTerminal r.status then some (.snapshot r) else wsLoop store fuel (t + 1)

/-- solution_status: emits the initial read of the store (not_found and close
when the id is unknown), then runs the wait loop; the full emission list is
returned, `none` when the modelling fuel runs out before the loop exits. -/
def solution_status (store : Nat → Option SolRecord) (fuel : Nat) :
    Option (List WsMsg) :=
  match store 0 with
  | none => some [.notFound]
  | some r => (wsLoop store fuel 0).map (fun m => [.snapshot r, m])

/-! ## The client poll loop
(SolutionRunnerClient._poll_solution_status in src/simulation/judge_client.py)

The transport is an abstract trace: the n-th GET either returns a snapshot
or raises.  Requests are instantaneous; elapsed time grows by the performed
sleeps.  The run records the returned outcome, whether the DELETE (stop)
request was issued, and the list of sleep durations in order. -/

/-- Result of one GET /solutions/{id} request. -/
inductive GetResult
  | ok (r : SolRecord)
  | exn (message : String)
deriving DecidableEq

/-- What the poll loop returned: a snapshot passed through, the
immediately-returned transport error dict, or the synthesized timeout dict
(emitted after the DELETE request). -/
inductive PollOut
  | result (r : SolRecord)
  | transportError (message : String)
  | timedOut
deriving DecidableEq

/-- One complete run of the poll loop. -/
structure PollRun where
  out : PollOut
  stop_requested : Bool
  sleeps : List ℚ
deriving DecidableEq

/-- The backoff update `poll_interval = min(poll_interval * 1.5, 2.0)`,
applied before each sleep. -/
def nextInterval (poll_interval : ℚ) : ℚ :=
  min (poll_interval * (3/2)) 2

/-- The poll loop: while the elapsed time is below the deadline, issue the
next GET; a raise returns the error dict at once, a completed or error
snapshot is returned, and otherwise the interval is updated and slept.
Once the deadline is reached the DELETE is issued and the timeout dict
returned.  `none` when the modelling fuel runs out. -/
def pollLoop (trace : Nat → GetResult) (deadline : ℚ) :
    Nat → Nat → ℚ → ℚ → Option PollRun
  | fuel, n, elapsed, poll_interval =>
    if elapsed < deadline then
      match fuel with
      | 0 => none
      | f + 1 =>
        match trace n with
        | .exn msg => some ⟨.transportError msg, false, []⟩
        | .ok r =>
          if r.status = .completed ∨ r.status = .error then
            some ⟨.result r, false, []⟩
          else
            (pollLoop trace deadline f (n + 1)
                (elapsed + nextInterval poll_interval) (nextInterval poll_interval)).map
              (fun run =>
                ⟨run.out, run.stop_requested, nextInterval poll_interval :: run.sleeps⟩)
    else
      some ⟨.timedOut, true, []⟩

/-- The sequence of sleeps the backoff performs starting from a given
interval value: each sleep uses the updated interval. -/
def sleepsFrom (poll_interval : ℚ) : Nat → List ℚ
  | 0 => []
  | m + 1 => nextInterval poll_interval :: sleepsFrom (nextInterval poll_interval) m

/-- _poll_solution_status: deadline `timeout_sec + 5`, interval variable
initialized to 0.5 seconds. -/
def poll_solution_status (trace : Nat → GetResult) (timeout_sec : ℚ)
    (fuel : Nat) : Option PollRun :=
  pollLoop trace (timeout_sec + 5) fuel 0 0 (1/2)

/-- The sleeps of a finished poll run (empty when the fuel ran out). -/
def pollSleeps (o : Option PollRun) : List ℚ :=
  o.elim [] PollRun.sleeps

/-! ## Concrete inputs used by witnesses and counterexamples -/

/-- A task spec whose rubric mean lands exactly on the 0.6 threshold:
item scores 1/2 (generic) and 1 (style, clean logs) with weights 4 and 1. -/
def thresholdSpec : TaskSpec :=
  { task_id := "sorting_001", category := "coding", time_limit_sec := 10,
    memory_mb := 128, metric := "latency_ms",
    rubric := [⟨"zzz", 4⟩, ⟨"style", 1⟩] }

/-- A task spec whose rubric mean is exactly 0.5999: item scores 0
(correctness, nonzero exit code) and 1 (style) with weights 4001 and 5999. -/
def nearThresholdSpec : TaskSpec :=
  { task_id := "sorting_001", category := "coding", time_limit_sec := 10,
    memory_mb := 128, metric := "latency_ms",
    rubric := [⟨"correct", 4001⟩, ⟨"style", 5999⟩] }

/-- A task spec with an empty rubric. -/
def emptyRubricSpec : TaskSpec :=
  { task_id := "sorting_001", category := "coding", time_limit_sec := 10,
    memory_mb := 128, metric := "latency_ms", rubric := [] }

/-- A completed execution outcome: exit code 0, 50ms runtime. -/
def okOutcome : SolutionResult :=
  { status := .completed, error := none, exit_code := some 0,
    logs := some "ok", execution_time_ms := some 50 }

/-- A completed execution outcome with exit code 1. -/
def failedOutcome : SolutionResult :=
  { status := .completed, error := none, exit_code := some 1,
    logs := some "ok", execution_time_ms := some 50 }

/-- An errored execution outcome. -/
def erroredOutcome : SolutionResult :=
  { status := .error, error := some "boom", exit_code := none,
    logs := none, execution_time_ms := none }

/-- A rubric item routed to the Performance strategy. -/
def perfItem : RubricItem := ⟨"Algorithmic complexity", 2/5⟩

/-- A submission request under id s1. -/
def reqA : SolutionRequest :=
  { code := "print(1)", language := "python", memory_limit_mb := 128,
    time_limit_sec := 10, solution_id := "s1" }

/-- A second submission request under the same id s1. -/
def reqB : SolutionRequest :=
  { code := "print(2)", language := "python", memory_limit_mb := 256,
    time_limit_sec := 10, solution_id := "s1" }

/-- A tracked record still running. -/
def runningRec : SolRecord := initialRecord reqA 0

/-- A tracked record in the terminal completed state. -/
def completedRec : SolRecord := completeUpdate (initialRecord reqA 0) 0 "done" 2

/-- A tracked record in the terminal errored state. -/
def erroredRec : SolRecord := errorUpdate (initialRecord reqA 0) "crashed"

/-- A store view that is terminal from the start. -/
def termStore : Nat → Option SolRecord := fun _ => some completedRec

/-- A store view that runs for two ticks and then is terminal. -/
def flipStore : Nat → Option SolRecord := fun t =>
  match t with
  | 0 => some runningRec
  | 1 => some runningRec
  | _ => some completedRec

/-- A transport trace that always returns a running snapshot. -/
def runningTrace : Nat → GetResult := fun _ => .ok runningRec

/-- A transport trace that raises on the very first GET. -/
def exnTrace : Nat → GetResult := fun _ => .exn "connection refused"

/-- A transport trace that raises on the second GET. -/
def exnLaterTrace : Nat → GetResult := fun n =>
  match n with
  | 0 => .ok runningRec
  | _ => .exn "connection reset"

/-- A store view with no record tracked. -/
def emptyStore : Nat → Option SolRecord := fun _ => none

/-- The outcome of a finished poll run. -/
def pollOutOf (o : Option PollRun) : Option PollOut := o.map PollRun.out

/-- Whether a finished poll run issued the DELETE (stop) request. -/
def pollStopOf (o : Option PollRun) : Option Bool := o.map PollRun.stop_requested

/-! ## Theorems -/

/-- Claim C1: for a task spec whose rubric is nonempty with every weight
positive and a Completed execution outcome, the aggregate score equals the
weighted mean of the per-item scores, and the success flag is true exactly
when that score is at least 0.6 (inclusive). -/
theorem judge_score_is_weighted_mean (spec : TaskSpec) (eid tid : String)
    (sr : SolutionResult) (wall : ℚ)
    (hst : sr.status = .completed)
    (hne : spec.rubric ≠ [])
    (hw : ∀ item ∈ spec.rubric, 0 < item.weight) :
    (evaluate_solution spec eid tid sr wall).score
      = (spec.rubric.map (fun item =>
          score_rubric_item item (sr.logs.getD "") (sr.exit_code.getD (-1))
            (some (sr.execution_time_ms.getD wall)) * item.weight)).sum
        / (spec.rubric.map RubricItem.weight).sum
    ∧ ((evaluate_solution spec eid tid sr wall).success = true
        ↔ 3/5 ≤ (evaluate_solution spec eid tid sr wall).score) := by
  have hw0 : 0 < (spec.rubric.map RubricItem.weight).sum := by
    apply List.sum_pos
    · intro x hx
      obtain ⟨item, hi, rfl⟩ := List.mem_map.1 hx
      exact hw item hi
    · simpa using hne
  have hcond : ¬ (sr.status = .error ∨ sr.status = .timeout) := by
    rw [hst]
    rintro (h | h) <;> exact absurd h (by decide)
  constructor
  · simp only [evaluate_solution, if_neg hcond, evaluate_rubric, if_pos hw0,
      List.map_map]
    rfl
  · simp only [evaluate_solution, if_neg hcond, evaluate_rubric, if_pos hw0,
      decide_eq_true_iff, ge_iff_le]

/-- Witness for C1: the threshold spec scores exactly 0.6 and succeeds; the
near-threshold spec scores exactly 0.5999 and fails. -/
theorem judge_score_is_weighted_mean_witness :
    (evaluate_solution thresholdSpec "e" "t" okOutcome 0).score = 3/5
    ∧ (evaluate_solution thresholdSpec "e" "t" okOutcome 0).success = true
    ∧ (evaluate_solution nearThresholdSpec "e" "t" failedOutcome 0).score = 5999/10000
    ∧ (evaluate_solution nearThresholdSpec "e" "t" failedOutcome 0).success = false := by
  obtain ⟨hs1, hb1⟩ :=
    judge_score_is_weighted_mean thresholdSpec "e" "t" okOutcome 0 rfl
      (by simp [thresholdSpec])
      (by simp [thresholdSpec, List.forall_mem_cons])
  obtain ⟨hs2, hb2⟩ :=
    judge_score_is_weighted_mean nearThresholdSpec "e" "t" failedOutcome 0 rfl
      (by simp [nearThresholdSpec])
      (by simp [nearThresholdSpec, List.forall_mem_cons])
  have e1 : score_rubric_item ⟨"zzz", 4⟩ "ok" 0 (some 50) = 1/2 := rfl
  have e2 : score_rubric_item ⟨"style", 1⟩ "ok" 0 (some 50) = 1 := rfl
  have e3 : score_rubric_item ⟨"correct", 4001⟩ "ok" 1 (some 50) = 0 := rfl
  have e4 : score_rubric_item ⟨"style", 5999⟩ "ok" 1 (some 50) = 1 := rfl
  have hv1 : (evaluate_solution thresholdSpec "e" "t" okOutcome 0).score = 3/5 := by
    rw [hs1]
    simp only [thresholdSpec, okOutcome, Option.getD_some, List.map_cons, List.map_nil,
      List.sum_cons, List.sum_nil, e1, e2]
    norm_num
  have hv2 : (evaluate_solution nearThresholdSpec "e" "t" failedOutcome 0).score
      = 5999/10000 := by
    rw [hs2]
    simp only [nearThresholdSpec, failedOutcome, Option.getD_some, List.map_cons,
      List.map_nil, List.sum_cons, List.sum_nil, e3, e4]
    norm_num
  refine ⟨hv1, hb1.2 (by rw [hv1]), hv2, ?_⟩
  rw [← Bool.not_eq_true]
  intro hsucc
  have := hb2.1 hsucc
  rw [hv2] at this
  norm_num at this

/-- Claim C2: an Errored or TimedOut outcome short-circuits the evaluation
to success false, score 0, metrics holding only the error message, and a
single judge feedback item on the execution section; the rubric is not
consulted. -/
theorem judge_error_short_circuit (spec : TaskSpec) (eid tid : String)
    (sr : SolutionResult) (wall : ℚ)
    (h : sr.status = .error ∨ sr.status = .timeout) :
    evaluate_solution spec eid tid sr wall =
      { episode_id := eid, task_id := tid, success := false, score := 0,
        metrics := [("error", .str (sr.error.getD "Unknown error"))],
        feedback := [{ source := "judge", rating := 0,
                       rationale := "Execution error: " ++ sr.error.getD "Unknown error",
                       rubric_section := "execution" }] } := by
  simp only [evaluate_solution, if_pos h]

/-- Witness for C2 at a concrete errored outcome. -/
theorem judge_error_short_circuit_witness :
    evaluate_solution thresholdSpec "e" "t" erroredOutcome 0 =
      { episode_id := "e", task_id := "t", success := false, score := 0,
        metrics := [("error", .str "boom")],
        feedback := [{ source := "judge", rating := 0,
                       rationale := "Execution error: boom",
                       rubric_section := "execution" }] } := by
  have h := judge_error_short_circuit thresholdSpec "e" "t" erroredOutcome 0 (Or.inl rfl)
  simpa [erroredOutcome] using h

/-- Claim C9: whenever the Performance strategy is selected (a description
matching complexity or performance but not correct or output), the item
score is a pure function of the measured execution time, bucketed exactly
as the spec states, with a missing measurement scoring 0.1. -/
theorem performance_score_buckets (item : RubricItem) (runtime_ms : Option ℚ)
    (h1 : strIn "correct" (lowerStr item.description) = false)
    (h2 : strIn "output" (lowerStr item.description) = false)
    (h3 : (strIn "complexity" (lowerStr item.description)
           || strIn "performance" (lowerStr item.description)) = true) :
    ∀ logs exit_code,
      score_rubric_item item logs exit_code runtime_ms
        = specPerformanceScore runtime_ms := by
  intro logs ec
  simp [score_rubric_item, specPerformanceScore, h1, h2, h3]

/-- Witness for C9: a 700ms runtime on a performance item scores 0.4. -/
theorem performance_score_buckets_witness :
    score_rubric_item perfItem "whatever logs" 1 (some 700)
      = specPerformanceScore (some 700)
    ∧ specPerformanceScore (some 700) = 4/10 := by
  constructor
  · exact performance_score_buckets perfItem (some 700) rfl rfl rfl "whatever logs" 1
  · rfl

/-- Claim C10: an empty rubric, or one whose weights sum to zero, does not
divide by the zero total weight: the guarded branch returns score 0 and the
success flag is false. -/
theorem zero_weight_guard (spec : TaskSpec) (logs : String) (exit_code : Int)
    (runtime_ms : Option ℚ)
    (h : spec.rubric = [] ∨ (spec.rubric.map RubricItem.weight).sum = 0) :
    (evaluate_rubric spec logs exit_code runtime_ms).2.1 = 0
    ∧ (evaluate_rubric spec logs exit_code runtime_ms).1 = false := by
  have hw : (spec.rubric.map RubricItem.weight).sum = 0 := by
    rcases h with h | h
    · rw [h]; rfl
    · exact h
  have hneg : ¬ ((spec.rubric.map RubricItem.weight).sum > 0) := by
    rw [hw]; exact lt_irrefl 0
  refine ⟨by simp only [evaluate_rubric, if_neg hneg], ?_⟩
  simp only [evaluate_rubric, if_neg hneg]
  exact decide_eq_false (by norm_num)

/-- Witness for C10 at the concrete empty-rubric spec. -/
theorem zero_weight_guard_witness :
    (evaluate_rubric emptyRubricSpec "ok" 0 (some 50)).2.1 = 0
    ∧ (evaluate_rubric emptyRubricSpec "ok" 0 (some 50)).1 = false :=
  zero_weight_guard emptyRubricSpec "ok" 0 (some 50) (Or.inl rfl)

/-- A dict assignment makes the assigned value the one looked up under the
assigned key. -/
theorem storeGet_storeSet_self (st : Store) (id : String) (r : SolRecord) :
    storeGet (storeSet st id r) id = some r := by
  induction st with
  | nil => simp [storeSet, storeGet]
  | cons p rest ih =>
    obtain ⟨k, v⟩ := p
    by_cases h : k = id
    · simp [storeSet, storeGet, h]
    · simpa [storeSet, storeGet, h] using ih

/-- A dict assignment leaves exactly one binding under the assigned key,
provided the store held at most one (every reachable store does). -/
theorem countKey_storeSet (st : Store) (id : String) (r : SolRecord)
    (h : countKey st id ≤ 1) :
    countKey (storeSet st id r) id = 1 := by
  induction st with
  | nil => simp [storeSet, countKey]
  | cons p rest ih =>
    obtain ⟨k, v⟩ := p
    by_cases hk : k = id
    · subst hk
      simp only [countKey, storeSet, if_pos rfl, List.filter_cons, decide_eq_true_eq,
        eq_self_iff_true, if_true, List.length_cons] at h ⊢
      omega
    · simp only [countKey, storeSet, if_neg hk, List.filter_cons, decide_eq_true_eq,
        if_neg hk] at h ⊢
      exact ih h

/-- Counterexample to claim C3: posting a second submission under an already
tracked id is not rejected with a conflict; both submissions are answered
accepted, and the tracked record is silently replaced by the second one. -/
theorem duplicate_submit_counterexample :
    ((run_solution ((run_solution [] reqA 0).1) reqB 1).2).status = "accepted"
    ∧ storeGet ((run_solution ((run_solution [] reqA 0).1) reqB 1).1) "s1"
        = some (initialRecord reqB 1)
    ∧ storeGet ((run_solution [] reqA 0).1) "s1" = some (initialRecord reqA 0) := by
  refine ⟨rfl, rfl, rfl⟩

/-- Claim C3 amended: a submit whose id is already tracked does not fail
with a conflict; it replies accepted and silently overwrites the existing
record, and the tracker is left holding exactly one record under the id,
namely the new submission's fresh running record. -/
theorem duplicate_submit_overwrites (st : Store) (request : SolutionRequest)
    (now : ℚ) (h : countKey st request.solution_id ≤ 1) :
    (run_solution st request now).2 = ⟨"accepted", request.solution_id⟩
    ∧ storeGet (run_solution st request now).1 request.solution_id
        = some (initialRecord request now)
    ∧ countKey (run_solution st request now).1 request.solution_id = 1 :=
  ⟨rfl, storeGet_storeSet_self st _ _, countKey_storeSet st _ _ h⟩

/-- Witness for the amended C3 at a concrete duplicate submission. -/
theorem duplicate_submit_overwrites_witness :
    (run_solution (run_solution [] reqA 0).1 reqB 1).2 = ⟨"accepted", "s1"⟩
    ∧ storeGet (run_solution (run_solution [] reqA 0).1 reqB 1).1 "s1"
        = some (initialRecord reqB 1)
    ∧ countKey (run_solution (run_solution [] reqA 0).1 reqB 1).1 "s1" = 1 := by
  have h := duplicate_submit_overwrites (run_solution [] reqA 0).1 reqB 1 (by decide)
  simpa [reqB] using h

/-- Counterexample to claim C4: a record in the terminal Completed state is
reset to Running by a re-submit under the same id; the terminal state is
not immutable. -/
theorem terminal_record_mutated_counterexample :
    (storeGet [("s1", completedRec)] "s1").map SolRecord.status = some .completed
    ∧ (storeGet (run_solution [("s1", completedRec)] reqB 5).1 "s1").map
        SolRecord.status = some .running := by
  refine ⟨rfl, rfl⟩

/-- Claim C4 amended: the store's mutating operations carry no terminal
guard at all: a re-submit resets any tracked record (terminal or not) to a
fresh running record, and the execution task's completion and fault writes
overwrite whatever record is current, so a second terminal write on the
same id is observable. -/
theorem tracker_updates_unguarded (st : Store) (request : SolutionRequest)
    (now : ℚ) (id : String) (r : SolRecord) (ec : Int) (lg : String) (t : ℚ)
    (msg : String) (h : storeGet st id = some r) :
    storeGet (run_solution st request now).1 request.solution_id
      = some (initialRecord request now)
    ∧ storeGet (execute_solution st id (.waitCompleted ec lg t)) id
        = some (completeUpdate r ec lg t)
    ∧ storeGet (execute_solution st id (.waitRaised msg)) id
        = some (errorUpdate r msg) := by
  refine ⟨storeGet_storeSet_self st _ _, ?_, ?_⟩
  · simp only [execute_solution, h]
    exact storeGet_storeSet_self st _ _
  · simp only [execute_solution, h]
    exact storeGet_storeSet_self st _ _

/-- Witness for the amended C4: the terminal completed record is overwritten
by a late fault write, a second terminal write on the same id. -/
theorem tracker_updates_unguarded_witness :
    storeGet (run_solution [("s1", completedRec)] reqB 5).1 "s1"
      = some (initialRecord reqB 5)
    ∧ storeGet (execute_solution [("s1", completedRec)] "s1"
        (.waitCompleted 0 "again" 9)) "s1"
        = some (completeUpdate completedRec 0 "again" 9)
    ∧ storeGet (execute_solution [("s1", completedRec)] "s1"
        (.waitRaised "late fault")) "s1"
        = some (errorUpdate completedRec "late fault") := by
  have h := tracker_updates_unguarded [("s1", completedRec)] reqB 5 "s1"
    completedRec 0 "again" 9 "late fault" rfl
  simpa [reqB] using h

/-- Counterexample to claim C5: on the timeout path (the wait raising), the
recorded snapshot has status error with the raised message, not status
timeout with the message execution timed out. -/
theorem timeout_status_counterexample :
    (storeGet (execute_solution [("s1", runningRec)] "s1"
        (.waitRaised "read timed out (10s)")) "s1").map SolRecord.status
      = some .error
    ∧ (storeGet (execute_solution [("s1", runningRec)] "s1"
        (.waitRaised "read timed out (10s)")) "s1").map SolRecord.status
      ≠ some .timeout
    ∧ (storeGet (execute_solution [("s1", runningRec)] "s1"
        (.waitRaised "read timed out (10s)")) "s1").map SolRecord.error
      ≠ some (some "execution timed out") := by
  refine ⟨rfl, by decide, by decide⟩

/-- Claim C5 amended: when the wait raises (which is how exceeding the time
limit surfaces), the sandbox manager records status Errored carrying the
raised exception's message; it never records a TimedOut status under any
execution event. -/
theorem wait_raise_records_errored (st : Store) (id : String) (r : SolRecord)
    (msg : String) (h : storeGet st id = some r) :
    storeGet (execute_solution st id (.waitRaised msg)) id
      = some (errorUpdate r msg)
    ∧ (errorUpdate r msg).status = .error
    ∧ ∀ ev : ExecEvent, ∀ r2 : SolRecord,
        storeGet (execute_solution st id ev) id = some r2 →
        r2.status ≠ .timeout := by
  refine ⟨?_, rfl, ?_⟩
  · simp only [execute_solution, h]
    exact storeGet_storeSet_self st _ _
  · intro ev r2 h2
    cases ev with
    | waitCompleted ec lg t =>
      simp only [execute_solution, h, storeGet_storeSet_self] at h2
      cases h2
      simp [completeUpdate]
    | waitRaised m =>
      simp only [execute_solution, h, storeGet_storeSet_self] at h2
      cases h2
      simp [errorUpdate]
    | startRaised m =>
      simp only [execute_solution, h, storeGet_storeSet_self] at h2
      cases h2
      simp [errorUpdate]

/-- Witness for the amended C5 at a concrete raised wait. -/
theorem wait_raise_records_errored_witness :
    storeGet (execute_solution [("s1", runningRec)] "s1"
        (.waitRaised "read timed out (10s)")) "s1"
      = some (errorUpdate runningRec "read timed out (10s)")
    ∧ (errorUpdate runningRec "read timed out (10s)").status = .error := by
  have h := wait_raise_records_errored [("s1", runningRec)] "s1" runningRec
    "read timed out (10s)" rfl
  exact ⟨h.1, h.2.1⟩

/-- The websocket wait loop emits exactly the snapshot of the first tick
whose record is terminal, provided the record stays tracked and non-terminal
until then and the fuel covers that tick. -/
theorem wsLoop_reaches_terminal (store : Nat → Option SolRecord) :
    ∀ k fuel t s, k < fuel →
      (∀ j, j < k → ∃ u, store (t + j) = some u ∧ isTerminal u.status = false) →
      store (t + k) = some s → isTerminal s.status = true →
      wsLoop store fuel t = some (.snapshot s) := by
  intro k
  induction k with
  | zero =>
    intro fuel t s hf hpre hk hterm
    obtain ⟨f, rfl⟩ : ∃ f, fuel = f + 1 := ⟨fuel - 1, by omega⟩
    rw [Nat.add_zero] at hk
    simp [wsLoop, hk, hterm]
  | succ k ih =>
    intro fuel t s hf hpre hk hterm
    obtain ⟨f, rfl⟩ : ∃ f, fuel = f + 1 := ⟨fuel - 1, by omega⟩
    obtain ⟨u, hu, hunt⟩ := hpre 0 (by omega)
    rw [Nat.add_zero] at hu
    have step : wsLoop store (f + 1) t = wsLoop store f (t + 1) := by
      simp [wsLoop, hu, hunt]
    rw [step]
    apply ih f (t + 1) s (by omega)
    · intro j hj
      have hp := hpre (j + 1) (by omega)
      rwa [show t + (j + 1) = t + 1 + j by omega] at hp
    · rwa [show t + 1 + k = t + (k + 1) by omega]
    · exact hterm

/-- Counterexample to claim C6: subscribing to an already-terminal
submission emits the snapshot twice (the initial send and the loop's
immediate terminal send), not exactly once. -/
theorem terminal_subscribe_two_snapshots_counterexample :
    solution_status termStore 3
      = some [.snapshot completedRec, .snapshot completedRec]
    ∧ (solution_status termStore 3).map List.length ≠ some 1 := by
  have h : solution_status termStore 3
      = some [.snapshot completedRec, .snapshot completedRec] := rfl
  exact ⟨h, by rw [h]; simp⟩

/-- Claim C6 amended: a subscription on an already-terminal submission emits
the terminal snapshot twice and then closes immediately; a subscription on
an unknown id emits a single NotFound and closes; a subscription on a
non-terminal submission emits the current snapshot, then re-checks each
100ms tick and emits exactly one further message, the snapshot of the first
tick whose record is terminal. -/
theorem subscribe_emission_behavior (store : Nat → Option SolRecord) (fuel : Nat) :
    (store 0 = none → solution_status store fuel = some [.notFound])
    ∧ (∀ r, store 0 = some r → isTerminal r.status = true → 0 < fuel →
        solution_status store fuel = some [.snapshot r, .snapshot r])
    ∧ (∀ r k s, store 0 = some r → isTerminal r.status = false → k < fuel →
        (∀ j, j < k → ∃ u, store j = some u ∧ isTerminal u.status = false) →
        store k = some s → isTerminal s.status = true →
        solution_status store fuel = some [.snapshot r, .snapshot s]) := by
  refine ⟨?_, ?_, ?_⟩
  · intro h
    simp [solution_status, h]
  · intro r h hterm hf
    have hloop : wsLoop store fuel 0 = some (.snapshot r) :=
      wsLoop_reaches_terminal store 0 fuel 0 r hf (by omega) h hterm
    simp [solution_status, h, hloop]
  · intro r k s h hrun hf hpre hk hterm
    have hloop : wsLoop store fuel 0 = some (.snapshot s) := by
      apply wsLoop_reaches_terminal store k fuel 0 s hf ?_ ?_ hterm
      · intro j hj
        simpa using hpre j hj
      · simpa using hk
    simp [solution_status, h, hloop]

/-- Witness for the amended C6: an unknown id yields a single NotFound; a
submission that turns terminal at tick 2 yields the running snapshot then
the completed snapshot. -/
theorem subscribe_emission_behavior_witness :
    solution_status emptyStore 3 = some [.notFound]
    ∧ solution_status flipStore 5
        = some [.snapshot runningRec, .snapshot completedRec] := by
  refine ⟨(subscribe_emission_behavior emptyStore 3).1 rfl, ?_⟩
  apply (subscribe_emission_behavior flipStore 5).2.2 runningRec 2 completedRec
    rfl rfl (by omega) ?_ rfl rfl
  intro j hj
  interval_cases j
  · exact ⟨runningRec, rfl, rfl⟩
  · exact ⟨runningRec, rfl, rfl⟩

/-- The updated backoff interval is at least 0.75s once the interval
variable is at least its initial 0.5s. -/
theorem nextInterval_lb (i : ℚ) (h : 1/2 ≤ i) : 3/4 ≤ nextInterval i := by
  rw [nextInterval]
  apply le_min ?_ (by norm_num)
  linarith

/-- The updated backoff interval is nonnegative for a nonnegative input. -/
theorem nextInterval_nonneg (i : ℚ) (h : 0 ≤ i) : 0 ≤ nextInterval i := by
  rw [nextInterval]
  apply le_min ?_ (by norm_num)
  linarith

/-- Backoff sleeps starting from a nonnegative interval sum to a
nonnegative duration. -/
theorem sleepsFrom_sum_nonneg (m : Nat) :
    ∀ i : ℚ, 0 ≤ i → 0 ≤ (sleepsFrom i m).sum := by
  induction m with
  | zero => intro i h; simp [sleepsFrom]
  | succ m ih =>
    intro i h
    have h2 : 0 ≤ nextInterval i := nextInterval_nonneg i h
    have h3 := ih (nextInterval i) h2
    simp only [sleepsFrom, List.sum_cons]
    linarith

/-- When every poll returns a non-terminal snapshot, the loop sleeps the
backoff sequence until the accumulated elapsed time reaches the deadline,
then returns the timeout outcome with the stop request issued.  The fuel
hypothesis only guarantees enough iterations, since each sleep is at least
0.75s. -/
theorem pollLoop_deadline (trace : Nat → GetResult) (deadline : ℚ)
    (hok : ∀ n, ∃ r, trace n = .ok r ∧ r.status ≠ .completed ∧ r.status ≠ .error) :
    ∀ (fuel n : Nat) (elapsed poll_interval : ℚ),
      deadline ≤ elapsed + 3/4 * (fuel : ℚ) → 1/2 ≤ poll_interval →
      ∃ m, pollLoop trace deadline fuel n elapsed poll_interval
            = some ⟨.timedOut, true, sleepsFrom poll_interval m⟩
        ∧ deadline ≤ elapsed + (sleepsFrom poll_interval m).sum
        ∧ ∀ k, k < m →
            elapsed + ((sleepsFrom poll_interval m).take k).sum < deadline := by
  intro fuel
  induction fuel with
  | zero =>
    intro n elapsed i hd hi
    have hnlt : ¬ elapsed < deadline := by
      push_cast at hd
      exact not_lt.2 (by linarith)
    refine ⟨0, ?_, ?_, ?_⟩
    · rw [pollLoop, if_neg hnlt]
      rfl
    · push_cast at hd
      simpa [sleepsFrom] using hd
    · intro k hk
      omega
  | succ f ih =>
    intro n elapsed i hd hi
    by_cases hlt : elapsed < deadline
    · obtain ⟨r, hr, hnc, hne⟩ := hok n
      have hcond : ¬ (r.status = .completed ∨ r.status = .error) := by tauto
      have hi34 : 3/4 ≤ nextInterval i := nextInterval_lb i hi
      have hi12 : 1/2 ≤ nextInterval i := le_trans (by norm_num) hi34
      have hd2 : deadline ≤ (elapsed + nextInterval i) + 3/4 * f := by
        push_cast at hd
        linarith
      obtain ⟨m, heq, hsum, hpre⟩ := ih (n + 1) (elapsed + nextInterval i)
        (nextInterval i) hd2 hi12
      refine ⟨m + 1, ?_, ?_, ?_⟩
      · rw [pollLoop, if_pos hlt]
        simp only [hr, if_neg hcond, heq, Option.map_some]
        rfl
      · simp only [sleepsFrom, List.sum_cons]
        linarith
      · intro k hk
        cases k with
        | zero => simpa using hlt
        | succ k2 =>
          have hp := hpre k2 (by omega)
          simp only [sleepsFrom, List.take_succ_cons, List.sum_cons]
          linarith
    · refine ⟨0, ?_, ?_, ?_⟩
      · rw [pollLoop, if_neg hlt]
        rfl
      · simpa [sleepsFrom] using not_lt.1 hlt
      · intro k hk
        omega

/-- Counterexample to claim C7: the very first inter-poll interval is 750ms,
not 500ms: the loop multiplies the 0.5s initial value by 1.5 (capped at 2s)
before its first sleep, so no 500ms gap ever occurs. -/
theorem first_poll_sleep_counterexample :
    (pollSleeps (poll_solution_status runningTrace 10 100)).head? = some (3/4)
    ∧ ((3:ℚ)/4 ≠ 1/2) := by
  have hok : ∀ n, ∃ r, runningTrace n = .ok r
      ∧ r.status ≠ .completed ∧ r.status ≠ .error :=
    fun n => ⟨runningRec, rfl, by decide, by decide⟩
  obtain ⟨m, heq, hsum, hpre⟩ := pollLoop_deadline runningTrace (10 + 5) hok
    100 0 0 (1/2) (by norm_num) (le_refl _)
  have hm : m ≠ 0 := by
    rintro rfl
    simp [sleepsFrom] at hsum
    norm_num at hsum
  obtain ⟨m2, rfl⟩ : ∃ m2, m = m2 + 1 := ⟨m - 1, by omega⟩
  have heq2 : poll_solution_status runningTrace 10 100
      = some ⟨.timedOut, true, sleepsFrom (1/2) (m2 + 1)⟩ := heq
  rw [heq2]
  constructor
  · show (sleepsFrom (1/2) (m2 + 1)).head? = some (3/4)
    simp only [sleepsFrom, List.head?_cons]
    norm_num [nextInterval]
  · norm_num

/-- Claim C7 amended: the poll wait uses the multiply-then-sleep backoff
(intervals follow min of 1.5 times the previous value and 2s, starting from
the 0.5s initial variable, so the first gap is 750ms), the overall deadline
is time limit plus 5s of grace, and when every poll stays non-terminal the
loop sleeps exactly until the accumulated time reaches that deadline, then
issues the DELETE stop request and returns the synthesized timeout outcome
regardless of the remote state. -/
theorem poll_backoff_deadline_timeout (trace : Nat → GetResult)
    (timeout_sec : ℚ) (fuel : Nat)
    (hok : ∀ n, ∃ r, trace n = .ok r ∧ r.status ≠ .completed ∧ r.status ≠ .error)
    (hfuel : timeout_sec + 5 ≤ 3/4 * (fuel : ℚ)) :
    ∃ m, poll_solution_status trace timeout_sec fuel
          = some ⟨.timedOut, true, sleepsFrom (1/2) m⟩
      ∧ timeout_sec + 5 ≤ (sleepsFrom (1/2) m).sum
      ∧ ∀ k, k < m → ((sleepsFrom (1/2) m).take k).sum < timeout_sec + 5 := by
  obtain ⟨m, heq, hsum, hpre⟩ := pollLoop_deadline trace (timeout_sec + 5) hok
    fuel 0 0 (1/2) (by linarith) (le_refl _)
  refine ⟨m, heq, by simpa using hsum, ?_⟩
  intro k hk
  simpa using hpre k hk

/-- Witness for the amended C7 at a concrete always-running trace. -/
theorem poll_backoff_deadline_timeout_witness :
    pollOutOf (poll_solution_status runningTrace 10 20) = some .timedOut
    ∧ pollStopOf (poll_solution_status runningTrace 10 20) = some true
    ∧ (pollSleeps (poll_solution_status runningTrace 10 20)).head?
        = some (3/4) := by
  obtain ⟨m, heq, hsum, hpre⟩ := poll_backoff_deadline_timeout runningTrace 10 20
    (fun n => ⟨runningRec, rfl, by decide, by decide⟩) (by norm_num)
  have hm : m ≠ 0 := by
    rintro rfl
    simp [sleepsFrom] at hsum
    norm_num at hsum
  obtain ⟨m2, rfl⟩ : ∃ m2, m = m2 + 1 := ⟨m - 1, by omega⟩
  rw [heq]
  refine ⟨rfl, rfl, ?_⟩
  show (sleepsFrom (1/2) (m2 + 1)).head? = some (3/4)
  simp only [sleepsFrom, List.head?_cons]
  norm_num [nextInterval]

/-- When the first k polls return non-terminal snapshots and the k-th
request raises while the elapsed time is still under the deadline, the loop
returns the transport error dict at once, having slept only the k backoff
intervals before the failure. -/
theorem pollLoop_exn (trace : Nat → GetResult) (deadline : ℚ) (msg : String) :
    ∀ (k fuel n : Nat) (elapsed poll_interval : ℚ),
      (∀ j, j < k → ∃ r, trace (n + j) = .ok r
        ∧ r.status ≠ .completed ∧ r.status ≠ .error) →
      trace (n + k) = .exn msg →
      0 ≤ poll_interval →
      elapsed + (sleepsFrom poll_interval k).sum < deadline →
      k < fuel →
      pollLoop trace deadline fuel n elapsed poll_interval
        = some ⟨.transportError msg, false, sleepsFrom poll_interval k⟩ := by
  intro k
  induction k with
  | zero =>
    intro fuel n elapsed i hpre hexn hi hsum hf
    obtain ⟨f, rfl⟩ : ∃ f, fuel = f + 1 := ⟨fuel - 1, by omega⟩
    have hlt : elapsed < deadline := by
      simpa [sleepsFrom] using hsum
    rw [Nat.add_zero] at hexn
    rw [pollLoop, if_pos hlt]
    simp [hexn, sleepsFrom]
  | succ k ih =>
    intro fuel n elapsed i hpre hexn hi hsum hf
    obtain ⟨f, rfl⟩ : ∃ f, fuel = f + 1 := ⟨fuel - 1, by omega⟩
    obtain ⟨r, hr, hnc, hne⟩ := hpre 0 (by omega)
    rw [Nat.add_zero] at hr
    have hcond : ¬ (r.status = .completed ∨ r.status = .error) := by tauto
    have hnn : 0 ≤ nextInterval i := nextInterval_nonneg i hi
    have hsum2 : (elapsed + nextInterval i)
        + (sleepsFrom (nextInterval i) k).sum < deadline := by
      simp only [sleepsFrom, List.sum_cons] at hsum
      linarith
    have hlt : elapsed < deadline := by
      have h1 : 0 ≤ (sleepsFrom (nextInterval i) k).sum :=
        sleepsFrom_sum_nonneg k _ hnn
      linarith
    have hrec := ih f (n + 1) (elapsed + nextInterval i) (nextInterval i)
      ?_ ?_ hnn hsum2 (by omega)
    · rw [pollLoop, if_pos hlt]
      simp only [hr, if_neg hcond, hrec, Option.map_some]
      rfl
    · intro j hj
      have hp := hpre (j + 1) (by omega)
      rwa [show n + (j + 1) = n + 1 + j by omega] at hp
    · rwa [show n + 1 + k = n + (k + 1) by omega]

/-- Counterexample to claim C8: a transport failure on the very first poll
is answered with the error outcome immediately (no sleeps performed), even
though the 15s deadline is nowhere near exhausted: the failure is not
retried. -/
theorem transport_error_immediate_counterexample :
    poll_solution_status exnTrace 10 30
      = some ⟨.transportError "connection refused", false, []⟩
    ∧ (0:ℚ) < 10 + 5 := by
  constructor
  · have hlt : (0:ℚ) < 10 + 5 := by norm_num
    rw [poll_solution_status, pollLoop, if_pos hlt]
    rfl
  · norm_num

/-- Claim C8 amended: a transport failure while awaiting the result is not
retried: the wait aborts at the failing poll and returns the Errored
outcome carrying the transport error immediately, however much of the
deadline remains. -/
theorem transport_error_aborts_wait (trace : Nat → GetResult)
    (timeout_sec : ℚ) (fuel k : Nat) (msg : String)
    (hpre : ∀ j, j < k → ∃ r, trace j = .ok r
      ∧ r.status ≠ .completed ∧ r.status ≠ .error)
    (hexn : trace k = .exn msg)
    (hsum : (sleepsFrom (1/2) k).sum < timeout_sec + 5)
    (hf : k < fuel) :
    poll_solution_status trace timeout_sec fuel
      = some ⟨.transportError msg, false, sleepsFrom (1/2) k⟩ := by
  have h := pollLoop_exn trace (timeout_sec + 5) msg k fuel 0 0 (1/2)
    (by simpa using hpre) (by simpa using hexn) (by norm_num)
    (by simpa using hsum) hf
  simpa [poll_solution_status] using h

/-- Witness for the amended C8: one successful non-terminal poll, then a
failing one; the error is returned with a single 750ms sleep performed. -/
theorem transport_error_aborts_wait_witness :
    poll_solution_status exnLaterTrace 10 30
      = some ⟨.transportError "connection reset", false, sleepsFrom (1/2) 1⟩ := by
  apply transport_error_aborts_wait exnLaterTrace 10 30 1 "connection reset"
    ?_ rfl ?_ (by omega)
  · intro j hj
    interval_cases j
    exact ⟨runningRec, rfl, by decide, by decide⟩
  · show (sleepsFrom (1/2) 1).sum < 10 + 5
    simp only [sleepsFrom, List.sum_cons, List.sum_nil]
    norm_num [nextInterval]
